import Mathlib

/-!
# MindTube — verification of the natural-language specification

Shallow embedding, in Lean 4, of the parts of the MindTube repository that the
frozen claims C1–C10 are about, together with theorems settling each claim.

Python strings are modelled as lists of characters (`Str`), Python `int` as
`Int` or `Nat` as appropriate, Python `float` as `ℚ` (the counterexamples use
dyadic rationals at which IEEE-754 double arithmetic is exact), and fallible
Python code as `Except Str`.  Network- and LLM-dependent calls are passed in as
explicit function parameters (oracles), so every definition is executable.
-/

set_option maxHeartbeats 1000000

namespace MindTube

/-- Python `str` is modelled as a list of characters. -/
abbrev Str := List Char

/-- Character-list view of a Lean string literal. -/
def str (s : String) : Str := s.data

/-- Whitespace test used by Python's `str.strip()` (the whitespace characters
that actually occur in the program's data). -/
def isWS (c : Char) : Bool := c == ' ' || c == '\t' || c == '\n' || c == '\r'

/-- Drop leading whitespace (the front half of Python `str.strip()`). -/
def trimL (l : Str) : Str := l.dropWhile isWS

/-- Drop trailing whitespace (the back half of Python `str.strip()`). -/
def trimR (l : Str) : Str := (l.reverse.dropWhile isWS).reverse

/-- Python `str.strip()`. -/
def pyStrip (l : Str) : Str := trimR (trimL l)

/-- Decimal digits of a natural number, most significant first. -/
def natStr (n : Nat) : Str := Nat.toDigits 10 n

/-- Python `str(n)` for an integer. -/
def intStr (n : Int) : Str := if n < 0 then '-' :: natStr (-n).toNat else natStr n.toNat

/-- Python's format specifier `02d`: pad with a leading zero to width 2. -/
def pad2 (n : Int) : Str := let s := intStr n; if s.length < 2 then '0' :: s else s

/-- `TranscriptSegment` from `app/models/schemas.py`. -/
structure TranscriptSegment where
  start_ms : Int
  end_ms : Int
  text : Str
  confidence : Option ℚ := none
  deriving Repr, DecidableEq

/-- `SummarizationService._format_timestamp` from
`app/services/summarization.py`: format milliseconds as `MM:SS`
(Python `//` and `%` on a positive divisor are `Int.ediv` / `Int.emod`). -/
def format_timestamp (ms : Int) : Str :=
  let seconds := ms.ediv 1000
  let minutes := seconds.ediv 60
  let secs := seconds.emod 60
  pad2 minutes ++ str ":" ++ pad2 secs

/-- The per-segment line `"[MM:SS] text"` built inside
`SummarizationService.chunk_transcript`. -/
def segment_text (seg : TranscriptSegment) : Str :=
  str "[" ++ format_timestamp seg.start_ms ++ str "] " ++ seg.text

/-- The loop of `SummarizationService.chunk_transcript`
(`app/services/summarization.py`), with the token counter
(`get_llm_client().count_tokens`) passed in as a function.  State:
the emitted chunks, the running chunk buffer, and its running token count. -/
def chunkGo (count : Str → Nat) (chunk_size : Nat) :
    List TranscriptSegment → List Str → Str → Nat → List Str
  | [], chunks, current_chunk, _ =>
    if pyStrip current_chunk ≠ [] then chunks ++ [pyStrip current_chunk] else chunks
  | seg :: rest, chunks, current_chunk, current_tokens =>
    let st := segment_text seg
    let segment_tokens := count st
    if current_tokens + segment_tokens > chunk_size ∧ current_chunk ≠ [] then
      chunkGo count chunk_size rest (chunks ++ [pyStrip current_chunk]) st segment_tokens
    else
      chunkGo count chunk_size rest chunks (current_chunk ++ '\n' :: st)
        (current_tokens + segment_tokens)

/-- `SummarizationService.chunk_transcript`: split a transcript into chunks
whose running token count respects `chunk_size`
(`settings.DEFAULT_CHUNK_SIZE_TOKENS`, default 1500). -/
def chunk_transcript (count : Str → Nat) (chunk_size : Nat)
    (transcript : List TranscriptSegment) : List Str :=
  chunkGo count chunk_size transcript [] [] 0

/-- Join a buffer of segment lines with newline separators. -/
def joinNL : List Str → Str
  | [] => []
  | [s] => s
  | s :: rest => s ++ '\n' :: joinNL rest

/-- Modelled from the claim's words (spec §4.5): chunking as a partition of the
formatted segment lines into buffers.  Whenever adding a segment's token count
would push the running chunk's token count over the budget and the buffer is
non-empty, the buffer is emitted and a new buffer starts with that segment;
otherwise the segment is appended to the current buffer; the final non-empty
buffer is always emitted. -/
def chunkBuffersGo (count : Str → Nat) (chunk_size : Nat) :
    List Str → List (List Str) → List Str → Nat → List (List Str)
  | [], done, buffer, _ => if buffer ≠ [] then done ++ [buffer] else done
  | s :: rest, done, buffer, tokens =>
    if tokens + count s > chunk_size ∧ buffer ≠ [] then
      chunkBuffersGo count chunk_size rest (done ++ [buffer]) [s] (count s)
    else
      chunkBuffersGo count chunk_size rest done (buffer ++ [s]) (tokens + count s)

/-- The specification-level chunking: buffers of whole formatted segments,
each emitted chunk being its buffer joined with newline separators. -/
def chunk_transcript_spec (count : Str → Nat) (chunk_size : Nat)
    (transcript : List TranscriptSegment) : List Str :=
  (chunkBuffersGo count chunk_size (transcript.map segment_text) [] [] 0).map joinNL

/-- A string that Python's `strip` leaves unchanged and that is non-empty. -/
def Clean (s : Str) : Prop := pyStrip s = s ∧ s ≠ []

instance (s : Str) : Decidable (Clean s) := by unfold Clean; infer_instance

/-- Loop invariant relating the code's string buffer to the specification's
list-of-lines buffer, carried through the chunking loop. -/
def ChunkInv (buffer : List Str) (current_chunk : Str) : Prop :=
  (buffer = [] ∧ current_chunk = []) ∨
    ((∀ s ∈ buffer, Clean s) ∧ buffer ≠ [] ∧
      (current_chunk = '\n' :: joinNL buffer ∨ current_chunk = joinNL buffer))

/-! ## C3 — `AzureOpenAIClient.reduce_summaries` (`app/services/llm_client.py`) -/

/-- One recorded chat-completion call: the system message content and the user
message content sent to the upstream API. -/
structure ChatCall where
  system_content : Str
  user_content : Str
  deriving Repr, DecidableEq

/-- Python `sep.join(parts)`. -/
def joinSep (sep : Str) : List Str → Str
  | [] => []
  | [s] => s
  | s :: rest => s ++ sep ++ joinSep sep rest

/-- The `reduction_prompts` dictionary lookup
`reduction_prompts.get(summary_type, reduction_prompts["detailed"])`. -/
def reduction_prompt (summary_type : Str) : Str :=
  if summary_type = str "short" then
    str "Combine these section summaries into a concise 2-3 bullet point overall summary:"
  else if summary_type = str "detailed" then
    str "Combine these section summaries into a comprehensive, well-structured summary that flows naturally:"
  else if summary_type = str "key_ideas" then
    str "Synthesize these sections to identify the most important key ideas or concepts:"
  else if summary_type = str "takeaways" then
    str "Combine these sections to create a cohesive list of actionable takeaways:"
  else
    str "Combine these section summaries into a comprehensive, well-structured summary that flows naturally:"

/-- The system message of the reduction call. -/
def reduce_system_message : Str :=
  str "You are an expert at synthesizing information. Combine the provided summaries into a coherent, well-structured final summary without redundancy."

/-- `AzureOpenAIClient.reduce_summaries`: the chat-completion API is passed in
as an oracle mapping (system content, user content) to the response text; the
result is returned together with the list of chat-completion calls performed
(so that the number of upstream calls is part of the model). -/
def reduce_summaries (chat : Str → Str → Str) (summaries : List Str)
    (summary_type : Str) : Str × List ChatCall :=
  if summaries.length = 1 then (summaries.headD [], [])
  else
    let combined_text := joinSep (str "\n\n")
      (summaries.enum.map fun p => str "Section " ++ natStr (p.1 + 1) ++ str ":\n" ++ p.2)
    let user := reduction_prompt summary_type ++ str "\n\n" ++ combined_text
    (chat reduce_system_message user, [⟨reduce_system_message, user⟩])

/-- The claim's numbered section blocks: `"Section 1"` .. `"Section N"` headers
over the summaries in input order. -/
def numberedSections (k : Nat) : List Str → List Str
  | [] => []
  | s :: rest => (str "Section " ++ natStr k ++ str ":\n" ++ s) :: numberedSections (k + 1) rest

/-! ## C4 — `YouTubeTranscriptService.fetch_transcript_with_fallback`
(`app/services/youtube_transcript.py`) -/

/-- One entry of `get_available_transcripts`' listing. -/
structure TranscriptInfo where
  language : Str
  language_code : Str
  is_generated : Bool
  is_translatable : Bool
  deriving Repr, DecidableEq

/-- Python list/str prefix test. -/
def isPrefixL : Str → Str → Bool
  | [], _ => true
  | _ :: _, [] => false
  | p :: ps, c :: cs => p == c && isPrefixL ps cs

/-- Python's substring test `pat in s`. -/
def inStr (pat : Str) : Str → Bool
  | [] => isPrefixL pat []
  | c :: rest => isPrefixL pat (c :: rest) || inStr pat rest

/-- The fallback branch of `fetch_transcript_with_fallback`: query available
transcripts; fail when there are none; otherwise retry `fetch_transcript` with
the language code of the first manually created (non-generated) track, else of
the first available track. -/
def fallback_fetch (fetch : List Str → Except Str (List TranscriptSegment))
    (available : Except Str (List TranscriptInfo)) : Except Str (List TranscriptSegment) :=
  match available with
  | .error e => .error e
  | .ok [] => .error (str "No transcripts available for this video")
  | .ok (t0 :: rest) =>
    let manual_transcripts := (t0 :: rest).filter fun t => !t.is_generated
    let fallback_language :=
      match manual_transcripts with
      | m :: _ => m.language_code
      | [] => t0.language_code
    fetch [fallback_language]

/-- `fetch_transcript_with_fallback`: `fetch_transcript` and
`get_available_transcripts` are passed in as oracles (`fetch` is keyed by the
requested language list); Python exceptions are `Except` errors carrying the
`ValueError` message, and the `"No transcript found" in str(e)` test is a
substring check on that message. -/
def fetch_transcript_with_fallback
    (fetch : List Str → Except Str (List TranscriptSegment))
    (available : Except Str (List TranscriptInfo))
    (preferred_languages : List Str) : Except Str (List TranscriptSegment) :=
  if preferred_languages ≠ [] then
    match fetch preferred_languages with
    | .ok segments => .ok segments
    | .error e =>
      if inStr (str "No transcript found") e then fallback_fetch fetch available
      else .error e
  else fallback_fetch fetch available

/-! ## C6 — segment construction in `YouTubeTranscriptService.fetch_transcript`
(`app/services/youtube_transcript.py`) -/

/-- One caption entry returned by the captions-retrieval client: start time and
duration in seconds (floats, modelled as rationals) and the cue text. -/
structure CaptionSnippet where
  start : ℚ
  duration : ℚ
  text : Str

/-- Python `int()` applied to a float: truncation toward zero. -/
def pyInt (q : ℚ) : Int := if 0 ≤ q then ⌊q⌋ else ⌈q⌉

/-- Python `round()` applied to a float: round half to even. -/
def pyRound (q : ℚ) : Int :=
  if q - ⌊q⌋ < 1/2 then ⌊q⌋
  else if q - ⌊q⌋ > 1/2 then ⌊q⌋ + 1
  else if ⌊q⌋ % 2 = 0 then ⌊q⌋ else ⌊q⌋ + 1

/-- The per-snippet segment construction inside `fetch_transcript`:
`start_ms = int(snippet.start * 1000)`,
`end_ms = int((snippet.start + snippet.duration) * 1000)`, text stripped. -/
def snippet_to_segment (snippet : CaptionSnippet) : TranscriptSegment :=
  { start_ms := pyInt (snippet.start * 1000)
    end_ms := pyInt ((snippet.start + snippet.duration) * 1000)
    text := pyStrip snippet.text }

/-- The success path of `fetch_transcript`: map every returned caption entry to
a `TranscriptSegment`. -/
def fetch_transcript_segments (transcript : List CaptionSnippet) : List TranscriptSegment :=
  transcript.map snippet_to_segment

/-! ## C7 — `process_complete_video` link attachment
(`app/services/summarization.py`) -/

/-- `SummarySection` from `app/models/schemas.py`. -/
structure SummarySection where
  content : Str
  timestamp_ms : Option Int := none
  youtube_link : Option Str := none
  deriving Repr, DecidableEq

/-- `SummarizationService._create_youtube_link`: append a `t=<seconds>s` query
parameter (`&` when the URL already contains `?`, else `?`); Python `// 1000`
is floor division (`Int.ediv` for the positive divisor). -/
def create_youtube_link (video_url : Str) (timestamp_ms : Int) : Str :=
  let seconds := timestamp_ms.ediv 1000
  if video_url.contains '?' then video_url ++ str "&t=" ++ intStr seconds ++ str "s"
  else video_url ++ str "?t=" ++ intStr seconds ++ str "s"

/-- The link-attachment step of `process_complete_video`:
`if section.timestamp_ms:` is Python truthiness, false for both `None` and
`0`. -/
def attach_link (video_url : Str) (s : SummarySection) : SummarySection :=
  match s.timestamp_ms with
  | some t =>
    if t ≠ 0 then { s with youtube_link := some (create_youtube_link video_url t) } else s
  | none => s

/-- The result map assembled by `process_complete_video`. -/
structure CompleteVideoResult where
  short_summary : List Str
  detailed_summary : List SummarySection
  key_ideas : List SummarySection
  actionable_takeaways : List SummarySection
  deriving Repr, DecidableEq

/-- `SummarizationService.process_complete_video`, parameterized by the four
summary artifacts produced by the (LLM-dependent) concurrent extraction calls:
attaches YouTube links to the sections of the three section lists and returns
the result map. -/
def process_complete_video (short_summary : List Str)
    (detailed_summary key_ideas takeaways : List SummarySection)
    (video_url : Str) : CompleteVideoResult :=
  { short_summary := short_summary
    detailed_summary := detailed_summary.map (attach_link video_url)
    key_ideas := key_ideas.map (attach_link video_url)
    actionable_takeaways := takeaways.map (attach_link video_url) }

/-! ## C1 — `process_video_pipeline` (`app/api/ingest.py`) -/

/-- `JobStatus` from `app/models/schemas.py`. -/
inductive JobStatus where
  | pending | fetching_metadata | fetching_transcript | chunking
  | mapping | reducing | finalizing | completed | failed | cancelled
  deriving Repr, DecidableEq

/-- The string value of the `JobStatus` str-enum (what a Python f-string
interpolates for a `(str, Enum)` member). -/
def JobStatus.value : JobStatus → Str
  | .pending => str "pending"
  | .fetching_metadata => str "fetching_metadata"
  | .fetching_transcript => str "fetching_transcript"
  | .chunking => str "chunking"
  | .mapping => str "mapping"
  | .reducing => str "reducing"
  | .finalizing => str "finalizing"
  | .completed => str "completed"
  | .failed => str "failed"
  | .cancelled => str "cancelled"

/-- `ProcessingProgress` from `app/models/schemas.py` (the `partial_results`
field, never written by the pipeline, is omitted). -/
structure ProcessingProgress where
  status : JobStatus
  progress_percent : Nat
  current_step : Str
  estimated_completion_seconds : Option Nat := none
  deriving Repr, DecidableEq

/-- The `processing_stats` map of a result record. -/
structure ProcessingStats where
  total_duration_seconds : Nat
  tokens_used : Nat
  cost_usd : ℚ
  deriving Repr, DecidableEq

/-- The `video_metadata` map of a result record. -/
structure VideoMetadataOut where
  video_id : Str
  title : Str
  channel_name : Str
  duration_seconds : Nat
  has_captions : Bool
  deriving Repr, DecidableEq

/-- The result record the pipeline stores under `jobs_store[job_id]["result"]`. -/
structure JobResult where
  job_id : Str
  video_metadata : VideoMetadataOut
  short_summary : List Str
  detailed_summary : List SummarySection
  key_ideas : List SummarySection
  actionable_takeaways : List SummarySection
  transcript : List TranscriptSegment
  processing_stats : ProcessingStats
  created_at : Str
  completed_at : Str
  deriving Repr, DecidableEq

/-- The in-memory job record held in `jobs_store` (`app/api/ingest.py`). -/
structure Job where
  job_id : Str
  status : JobStatus
  progress : ProcessingProgress
  result : Option JobResult := none
  error : Option Str := none
  created_at : Str := str "2025-01-01T00:00:00Z"
  deriving Repr, DecidableEq

/-- The staged `(status, step, progress)` tuples of `process_video_pipeline`. -/
def pipeline_stages : List (JobStatus × Str × Nat) :=
  [(JobStatus.fetching_metadata, str "Fetching video metadata", 10),
   (JobStatus.fetching_transcript, str "Extracting transcript", 25),
   (JobStatus.chunking, str "Chunking transcript", 40),
   (JobStatus.mapping, str "Generating initial summaries", 65),
   (JobStatus.reducing, str "Creating final summaries", 85),
   (JobStatus.finalizing, str "Finalizing results", 95)]

/-- The per-stage job update of the staged loop. -/
def apply_stage (job : Job) (stage : JobStatus × Str × Nat) : Job :=
  { job with
    status := stage.1
    progress := { job.progress with
      status := stage.1
      progress_percent := stage.2.2
      current_step := stage.2.1 } }

/-- The staged loop of `process_video_pipeline`. -/
def run_stages (job : Job) : Job := pipeline_stages.foldl apply_stage job

/-- The fixed 10-segment demonstration transcript substituted when the real
transcript fetch fails. -/
def mock_transcript : List TranscriptSegment :=
  [⟨0, 5000, str "Welcome to this tutorial on machine learning fundamentals.", none⟩,
   ⟨5000, 12000, str "Today we'll cover supervised learning, unsupervised learning, and reinforcement learning.", none⟩,
   ⟨12000, 20000, str "Supervised learning uses labeled data to train models that can make predictions.", none⟩,
   ⟨20000, 28000, str "Common examples include classification and regression problems.", none⟩,
   ⟨28000, 35000, str "Unsupervised learning finds patterns in data without labeled examples.", none⟩,
   ⟨35000, 42000, str "Clustering and dimensionality reduction are key unsupervised techniques.", none⟩,
   ⟨42000, 50000, str "Reinforcement learning trains agents through trial and error with rewards.", none⟩,
   ⟨50000, 58000, str "Key takeaway: Choose the right approach based on your data and problem type.", none⟩,
   ⟨58000, 65000, str "Practice with real datasets to build your machine learning skills.", none⟩,
   ⟨65000, 70000, str "Thanks for watching, and happy learning!", none⟩]

/-- The transcript actually processed: the fetched one, or on any fetch
failure the mock transcript. -/
def transcript_or_mock (fetch_result : Except Str (List TranscriptSegment)) :
    List TranscriptSegment :=
  match fetch_result with
  | .ok t => t
  | .error _ => mock_transcript

/-- The result record stored on the successful Azure-OpenAI path. -/
def success_result (job_id : Str) (transcript : List TranscriptSegment)
    (summaries : CompleteVideoResult) : JobResult :=
  { job_id := job_id
    video_metadata :=
      ⟨str "demo_video_id", str "Machine Learning Fundamentals Tutorial",
        str "AI Education Channel", 70, true⟩
    short_summary := summaries.short_summary
    detailed_summary := summaries.detailed_summary
    key_ideas := summaries.key_ideas
    actionable_takeaways := summaries.actionable_takeaways
    transcript := transcript
    processing_stats := ⟨15, 2500, 8/100⟩
    created_at := str "2025-01-01T00:00:00Z"
    completed_at := str "2025-01-01T00:00:15Z" }

/-- The literal fallback result stored when Azure-OpenAI processing raises. -/
def fallback_result (job_id url : Str) : JobResult :=
  { job_id := job_id
    video_metadata :=
      ⟨str "fallback_video_id", str "Fallback Demo Video", str "Demo Channel", 60, true⟩
    short_summary :=
      [str "This is a fallback summary when Azure OpenAI is not available",
       str "The system gracefully handles configuration issues"]
    detailed_summary :=
      [⟨str "Fallback detailed summary content", some 30000, some (url ++ str "&t=30s")⟩]
    key_ideas := [⟨str "Fallback key idea", some 45000, some (url ++ str "&t=45s")⟩]
    actionable_takeaways :=
      [⟨str "Configure Azure OpenAI credentials to enable AI processing", some 55000,
        some (url ++ str "&t=55s")⟩]
    transcript := [⟨0, 5000, str "Fallback transcript segment", none⟩]
    processing_stats := ⟨8, 0, 0⟩
    created_at := str "2025-01-01T00:00:00Z"
    completed_at := str "2025-01-01T00:00:08Z" }

/-- `process_video_pipeline` (`app/api/ingest.py`), acting on the job record
`jobs_store[job_id]`.  The transcript fetch and the summarization service are
passed in as oracles; `outer_fault` injects an exception escaping the outer
`try` (e.g. raised between stage updates), which is the only path to the
`failed` status.  Exceptions of the transcript fetch and of summarization are
caught by the two inner handlers and never escape. -/
def process_video_pipeline (job_id url : Str) (outer_fault : Option Str)
    (fetch_result : Except Str (List TranscriptSegment))
    (summarize : List TranscriptSegment → Except Str CompleteVideoResult)
    (job : Job) : Job :=
  match outer_fault with
  | some e => { job with status := JobStatus.failed, error := some e }
  | none =>
    let job := run_stages job
    let transcript := transcript_or_mock fetch_result
    match summarize transcript with
    | .ok summaries =>
      { job with
        status := JobStatus.completed
        progress := { job.progress with
          progress_percent := 100, current_step := str "Completed" }
        result := some (success_result job_id transcript summaries) }
    | .error _ =>
      { job with
        status := JobStatus.completed
        progress := { job.progress with
          progress_percent := 100, current_step := str "Completed (fallback)" }
        result := some (fallback_result job_id url) }

/-! ## C8 — `cancel_job` (`app/api/status.py`) -/

/-- The in-memory `jobs_store`, modelled as an association list with the
Python-dict operations used by the endpoints. -/
abbrev JobStore := List (Str × Job)

/-- Python `jobs_store[job_id]` / `job_id in jobs_store` lookup. -/
def storeGet : JobStore → Str → Option Job
  | [], _ => none
  | (k, j) :: rest, job_id => if k = job_id then some j else storeGet rest job_id

/-- Python `jobs_store[job_id] = job` assignment. -/
def storeSet : JobStore → Str → Job → JobStore
  | [], job_id, job => [(job_id, job)]
  | (k, j) :: rest, job_id, job =>
    if k = job_id then (k, job) :: rest else (k, j) :: storeSet rest job_id job

/-- The terminal states rejected by the cancel endpoint. -/
def terminal_states : List JobStatus :=
  [JobStatus.completed, JobStatus.failed, JobStatus.cancelled]

/-- `cancel_job` (`app/api/status.py`): 404 for an unknown id, 400 for a job
in a terminal state (store unchanged), otherwise set the job's status to
`cancelled` and its progress step to "Cancelled by user".  The outcome is the
HTTP response: `.error (code, detail)` for an `HTTPException`, `.ok message`
for success. -/
def cancel_job (store : JobStore) (job_id : Str) : Except (Nat × Str) Str × JobStore :=
  match storeGet store job_id with
  | none => (.error (404, str "Job " ++ job_id ++ str " not found"), store)
  | some job_data =>
    if job_data.status ∈ terminal_states then
      (.error (400, str "Cannot cancel job in " ++ job_data.status.value ++ str " state"),
        store)
    else
      (.ok (str "Job " ++ job_id ++ str " cancelled successfully"),
        storeSet store job_id
          { job_data with
            status := JobStatus.cancelled
            progress := { job_data.progress with current_step := str "Cancelled by user" } })

/-! ## C9 — `Mindmap` construction (`mindtube/models/analysis.py`) -/

/-- `MindmapNode` from `mindtube/models/analysis.py`. -/
structure MindmapNode where
  id : Str
  label : Str
  parent_id : Option Str := none
  level : Int
  category : Option Str := none
  deriving Repr, DecidableEq

/-- Python truthiness collapse of `Optional[str]`: `None` and the empty
string are both falsy, every other value is its own truthy content. -/
def truthyParent (node : MindmapNode) : Str := node.parent_id.getD []

/-- The scan of `validate_node_hierarchy`: the first node whose `parent_id` is
truthy (present and non-empty — Python `if node.parent_id`) and not among the
node ids, returned as (missing parent id, node id). -/
def firstMissingParent (node_ids : List Str) : List MindmapNode → Option (Str × Str)
  | [] => none
  | node :: rest =>
    if truthyParent node ≠ [] ∧ truthyParent node ∉ node_ids then
      some (truthyParent node, node.id)
    else firstMissingParent node_ids rest

/-- The two pydantic validators run on `Mindmap.nodes` at construction, in
declaration order: `nodes_must_not_be_empty` then `validate_node_hierarchy`. -/
def validate_mindmap_nodes (nodes : List MindmapNode) : Except Str (List MindmapNode) :=
  if nodes = [] then .error (str "Mindmap must have at least one node")
  else
    match firstMissingParent (nodes.map MindmapNode.id) nodes with
    | some pr => .error (str "Parent node " ++ pr.1 ++ str " not found for node " ++ pr.2)
    | none => .ok nodes

/-- `Mindmap` from `mindtube/models/analysis.py` (the validated record). -/
structure Mindmap where
  video_id : Str
  title : Str
  nodes : List MindmapNode
  model_used : Str
  deriving Repr, DecidableEq

/-- Mindmap construction: pydantic runs the node validators; a validator
failure is a construction failure. -/
def mkMindmap (video_id title : Str) (nodes : List MindmapNode) (model_used : Str) :
    Except Str Mindmap :=
  (validate_mindmap_nodes nodes).map fun ns => ⟨video_id, title, ns, model_used⟩

/-! ## C5 / C10 — the video-URL regexes
(`app/services/youtube_transcript.py` and `app/models/schemas.py`) -/

/-- The character class `[a-zA-Z0-9_-]` of the video-id regexes. -/
def idChar (c : Char) : Bool := c.isAlpha || c.isDigit || c == '_' || c == '-'

/-- Match a literal regex piece at the head of the input, returning the rest. -/
def dropLit : Str → Str → Option Str
  | [], s => some s
  | _ :: _, [] => none
  | p :: ps, c :: cs => if p = c then dropLit ps cs else none

/-- An optional literal piece (`(?:lit)?`).  In every pattern below the
character that follows the optional piece differs from the piece's first
character, so the regex engine's greedy try-then-backtrack equals this
committed choice. -/
def dropOpt (lit : Str) (s : Str) : Str :=
  match dropLit lit s with
  | some r => r
  | none => s

/-- `([a-zA-Z0-9_-]{11})`: the 11-character id capture group, with everything
after it ignored (none of the patterns is end-anchored). -/
def take11 (s : Str) : Option Str :=
  if (s.take 11).length = 11 ∧ (s.take 11).all idChar then some (s.take 11) else none

/-- `re.match` of `https?://(?:www\.)?youtube\.com/watch\?v=([a-zA-Z0-9_-]{11})`
(`VideoIngestRequest.validate_youtube_url`, first pattern): anchored at the
start of the string, no end anchor. -/
def matchWatchUrl (s : Str) : Bool :=
  match dropLit (str "http") s with
  | none => false
  | some r1 =>
    match dropLit (str "://") (dropOpt (str "s") r1) with
    | none => false
    | some r2 =>
      match dropLit (str "youtube.com/watch?v=") (dropOpt (str "www.") r2) with
      | none => false
      | some r3 => (take11 r3).isSome

/-- `re.match` of `https?://youtu\.be/([a-zA-Z0-9_-]{11})` (second pattern). -/
def matchShortLinkUrl (s : Str) : Bool :=
  match dropLit (str "http") s with
  | none => false
  | some r1 =>
    match dropLit (str "://") (dropOpt (str "s") r1) with
    | none => false
    | some r2 =>
      match dropLit (str "youtu.be/") r2 with
      | none => false
      | some r3 => (take11 r3).isSome

/-- `re.match` of `https?://(?:www\.)?youtube\.com/embed/([a-zA-Z0-9_-]{11})`
(third pattern). -/
def matchEmbedUrl (s : Str) : Bool :=
  match dropLit (str "http") s with
  | none => false
  | some r1 =>
    match dropLit (str "://") (dropOpt (str "s") r1) with
    | none => false
    | some r2 =>
      match dropLit (str "youtube.com/embed/") (dropOpt (str "www.") r2) with
      | none => false
      | some r3 => (take11 r3).isSome

/-- `VideoIngestRequest.validate_youtube_url` (`app/models/schemas.py`):
accept when any of the three anchored patterns matches, else raise the
validation error. -/
def validate_youtube_url (v : Str) : Except Str Str :=
  if matchWatchUrl v || matchShortLinkUrl v || matchEmbedUrl v then .ok v
  else .error (str "Invalid YouTube URL format")

/-- A single-position attempt of `extract_video_id`'s first pattern — the four
prefix-disjoint alternatives of
`(?:youtube\.com/watch\?v=|youtu\.be/|youtube\.com/embed/|m\.youtube\.com/watch\?v=)([a-zA-Z0-9_-]{11})`. -/
def matchP1At (s : Str) : Option Str :=
  (dropLit (str "youtube.com/watch?v=") s).bind take11
  <|> (dropLit (str "youtu.be/") s).bind take11
  <|> (dropLit (str "youtube.com/embed/") s).bind take11
  <|> (dropLit (str "m.youtube.com/watch?v=") s).bind take11

/-- `re.search` of the first pattern: the leftmost matching position wins. -/
def searchP1 : Str → Option Str
  | [] => none
  | c :: rest => matchP1At (c :: rest) <|> searchP1 rest

/-- `[?&]v=([a-zA-Z0-9_-]{11})` at the current position. -/
def matchVEq : Str → Option Str
  | [] => none
  | c :: rest => if c = '?' ∨ c = '&' then (dropLit (str "v=") rest).bind take11 else none

/-- The `.*[?&]v=(id)` tail of the second pattern: the greedy `.*` (which
cannot cross a newline) hands the group to the rightmost matching `[?&]v=`
position. -/
def lastVEq : Str → Option Str
  | [] => none
  | c :: rest => (if c ≠ '\n' then lastVEq rest else none) <|> matchVEq (c :: rest)

/-- `re.search` of `youtube\.com/.*[?&]v=([a-zA-Z0-9_-]{11})`
(`extract_video_id`, second pattern). -/
def searchP2 : Str → Option Str
  | [] => none
  | c :: rest => (dropLit (str "youtube.com/") (c :: rest)).bind lastVEq <|> searchP2 rest

/-- `YouTubeTranscriptService.extract_video_id`
(`app/services/youtube_transcript.py`): strip whitespace; search the two
patterns in order; then accept a bare 11-character id
(`re.match(r'^[a-zA-Z0-9_-]{11}$', url)`); otherwise raise the `ValueError`
naming the URL. -/
def extract_video_id (url : Str) : Except Str Str :=
  let u := pyStrip url
  match searchP1 u with
  | some video_id => .ok video_id
  | none =>
    match searchP2 u with
    | some video_id => .ok video_id
    | none =>
      if u.length = 11 ∧ u.all idChar then .ok u
      else .error (str "Could not extract video ID from URL: " ++ u)

/-! ## Theorems settling the claims, with their supporting lemmas -/

theorem trimL_head (l : Str) (h : trimL l = l) (hne : l ≠ []) :
    ∃ c cs, l = c :: cs ∧ isWS c = false := by
  cases l with
  | nil => exact absurd rfl hne
  | cons c cs =>
    refine ⟨c, cs, rfl, ?_⟩
    by_contra hws
    simp only [Bool.not_eq_false] at hws
    unfold trimL at h
    rw [List.dropWhile_cons, if_pos hws] at h
    have : (cs.dropWhile isWS).length ≤ cs.length :=
      (List.dropWhile_suffix isWS).length_le
    have h2 := congrArg List.length h
    simp only [List.length_cons] at h2
    omega

theorem trimL_append (l r : Str) (h : trimL l = l) (hne : l ≠ []) :
    trimL (l ++ r) = l ++ r := by
  obtain ⟨c, cs, rfl, hc⟩ := trimL_head l h hne
  unfold trimL
  rw [List.cons_append, List.dropWhile_cons, if_neg (by simp [hc])]

theorem trimL_cons_ws (c : Char) (l : Str) (h : isWS c = true) :
    trimL (c :: l) = trimL l := by
  unfold trimL
  rw [List.dropWhile_cons, if_pos h]

theorem trimR_reverse_eq (r : Str) (h : trimR r = r) :
    r.reverse.dropWhile isWS = r.reverse := by
  unfold trimR at h
  have := congrArg List.reverse h
  simpa using this

theorem trimR_append (l r : Str) (h : trimR r = r) (hne : r ≠ []) :
    trimR (l ++ r) = l ++ r := by
  have h1 : trimL r.reverse = r.reverse := trimR_reverse_eq r h
  have h2 : r.reverse ≠ [] := by simpa using hne
  have h3 := trimL_append r.reverse l.reverse h1 h2
  unfold trimL at h3
  unfold trimR
  rw [List.reverse_append, h3]
  simp

theorem length_trimL_le (l : Str) : (trimL l).length ≤ l.length :=
  (List.dropWhile_suffix isWS).length_le

theorem length_trimR_le (l : Str) : (trimR l).length ≤ l.length := by
  unfold trimR
  have : (l.reverse.dropWhile isWS).length ≤ l.reverse.length :=
    (List.dropWhile_suffix isWS).length_le
  simpa using this

theorem clean_trimL (s : Str) (h : Clean s) : trimL s = s := by
  obtain ⟨hs, _⟩ := h
  have h1 : (pyStrip s).length ≤ (trimL s).length := length_trimR_le (trimL s)
  have h2 : (trimL s).length ≤ s.length := length_trimL_le s
  have h3 : (pyStrip s).length = s.length := by rw [hs]
  have hlen : (trimL s).length = s.length := by omega
  have hsuf : trimL s <:+ s := List.dropWhile_suffix isWS
  exact List.IsSuffix.eq_of_length hsuf hlen

theorem clean_trimR (s : Str) (h : Clean s) : trimR s = s := by
  have h1 := clean_trimL s h
  have h2 := h.1
  unfold pyStrip at h2
  rwa [h1] at h2

theorem clean_append (a b : Str) (ha : Clean a) (hb : Clean b) : Clean (a ++ b) := by
  refine ⟨?_, by simp [ha.2]⟩
  unfold pyStrip
  rw [trimL_append a b (clean_trimL a ha) ha.2,
    trimR_append a b (clean_trimR b hb) hb.2]

theorem joinNL_ne_nil (buf : List Str) (hbuf : buf ≠ [])
    (hclean : ∀ s ∈ buf, Clean s) : joinNL buf ≠ [] := by
  cases buf with
  | nil => exact absurd rfl hbuf
  | cons s rest =>
    cases rest with
    | nil => exact (hclean s (by simp)).2
    | cons t ts =>
      show s ++ '\n' :: joinNL (t :: ts) ≠ []
      simp [(hclean s (by simp)).2]

theorem joinNL_clean (buf : List Str) (hbuf : buf ≠ [])
    (hclean : ∀ s ∈ buf, Clean s) : Clean (joinNL buf) := by
  induction buf with
  | nil => exact absurd rfl hbuf
  | cons s rest ih =>
    cases rest with
    | nil => exact hclean s (by simp)
    | cons t ts =>
      have hs : Clean s := hclean s (by simp)
      have hrest : Clean (joinNL (t :: ts)) :=
        ih (by simp) (fun x hx => hclean x (by simp [hx]))
      show Clean (s ++ '\n' :: joinNL (t :: ts))
      have hassoc : s ++ '\n' :: joinNL (t :: ts)
          = (s ++ ['\n']) ++ joinNL (t :: ts) := by simp
      rw [hassoc]
      refine ⟨?_, by simp [hs.2]⟩
      unfold pyStrip
      rw [trimL_append _ _ ?_ (by simp [hs.2]),
        trimR_append _ _ (clean_trimR _ hrest) hrest.2]
      have := clean_trimL s hs
      exact trimL_append s ['\n'] this hs.2

theorem pyStrip_joinNL (buf : List Str) (hbuf : buf ≠ [])
    (hclean : ∀ s ∈ buf, Clean s) : pyStrip (joinNL buf) = joinNL buf :=
  (joinNL_clean buf hbuf hclean).1

theorem pyStrip_nl_joinNL (buf : List Str) (hbuf : buf ≠ [])
    (hclean : ∀ s ∈ buf, Clean s) : pyStrip ('\n' :: joinNL buf) = joinNL buf := by
  have hcl := joinNL_clean buf hbuf hclean
  unfold pyStrip
  rw [trimL_cons_ws '\n' _ (by decide), clean_trimL _ hcl, clean_trimR _ hcl]

theorem joinNL_concat (buf : List Str) (s : Str) (hbuf : buf ≠ []) :
    joinNL (buf ++ [s]) = joinNL buf ++ '\n' :: s := by
  induction buf with
  | nil => exact absurd rfl hbuf
  | cons b rest ih =>
    cases rest with
    | nil => rfl
    | cons t ts =>
      show b ++ '\n' :: joinNL ((t :: ts) ++ [s])
          = (b ++ '\n' :: joinNL (t :: ts)) ++ '\n' :: s
      rw [ih (by simp)]
      simp

theorem chunkInv_strip (buffer : List Str) (current_chunk : Str)
    (h : ChunkInv buffer current_chunk) (hne : buffer ≠ []) :
    pyStrip current_chunk = joinNL buffer := by
  rcases h with ⟨hb, _⟩ | ⟨hclean, hb, hcur | hcur⟩
  · exact absurd hb hne
  · rw [hcur]; exact pyStrip_nl_joinNL buffer hb hclean
  · rw [hcur]; exact pyStrip_joinNL buffer hb hclean

theorem chunkInv_ne_iff (buffer : List Str) (current_chunk : Str)
    (h : ChunkInv buffer current_chunk) : current_chunk ≠ [] ↔ buffer ≠ [] := by
  rcases h with ⟨hb, hc⟩ | ⟨hclean, hb, hcur | hcur⟩
  · simp [hb, hc]
  · subst hcur; simp [hb]
  · subst hcur
    exact ⟨fun _ => hb, fun _ => joinNL_ne_nil buffer hb hclean⟩

theorem chunkGo_spec_go (count : Str → Nat) (chunk_size : Nat) :
    ∀ (segs : List TranscriptSegment),
    (∀ seg ∈ segs, Clean (segment_text seg)) →
    ∀ (done : List (List Str)) (buffer : List Str) (current_chunk : Str) (tok : Nat),
    ChunkInv buffer current_chunk →
    chunkGo count chunk_size segs (done.map joinNL) current_chunk tok
      = (chunkBuffersGo count chunk_size (segs.map segment_text) done buffer tok).map joinNL
  | [], _, done, buffer, current_chunk, tok, hinv => by
    simp only [chunkGo, List.map_nil, chunkBuffersGo]
    by_cases hb : buffer = []
    · rcases hinv with ⟨hb', hc⟩ | ⟨_, hb', _⟩
      · subst hb'; subst hc
        simp [pyStrip, trimL, trimR]
      · exact absurd hb hb'
    · rw [chunkInv_strip buffer current_chunk hinv hb, if_pos hb]
      rcases hinv with ⟨hb', _⟩ | ⟨hclean, hb', _⟩
      · exact absurd hb' hb
      · rw [if_pos (joinNL_ne_nil buffer hb' hclean)]
        simp
  | seg :: rest, hclean, done, buffer, current_chunk, tok, hinv => by
    have hseg : Clean (segment_text seg) := hclean seg (by simp)
    have hrest : ∀ s ∈ rest, Clean (segment_text s) :=
      fun s hs => hclean s (by simp [hs])
    simp only [chunkGo, List.map_cons, chunkBuffersGo]
    have hiff := chunkInv_ne_iff buffer current_chunk hinv
    by_cases hcond : tok + count (segment_text seg) > chunk_size ∧ buffer ≠ []
    · rw [if_pos hcond, if_pos ⟨hcond.1, hiff.mpr hcond.2⟩]
      rw [chunkInv_strip buffer current_chunk hinv hcond.2]
      have hmap : done.map joinNL ++ [joinNL buffer] = (done ++ [buffer]).map joinNL := by simp
      rw [hmap]
      exact chunkGo_spec_go count chunk_size rest hrest (done ++ [buffer])
        [segment_text seg] (segment_text seg) (count (segment_text seg))
        (Or.inr ⟨by simpa using hseg, by simp, Or.inr rfl⟩)
    · rw [if_neg (fun hc => hcond ⟨hc.1, hiff.mp hc.2⟩), if_neg hcond]
      refine chunkGo_spec_go count chunk_size rest hrest done
        (buffer ++ [segment_text seg]) (current_chunk ++ '\n' :: segment_text seg)
        (tok + count (segment_text seg)) ?_
      rcases hinv with ⟨hb, hc⟩ | ⟨hcl, hb, hcur | hcur⟩
      · subst hb; subst hc
        exact Or.inr ⟨by simpa using hseg, by simp, Or.inl (by simp [joinNL])⟩
      · refine Or.inr ⟨?_, by simp, Or.inl ?_⟩
        · intro s hs
          rcases List.mem_append.mp hs with h | h
          · exact hcl s h
          · simp only [List.mem_singleton] at h; subst h; exact hseg
        · rw [hcur, joinNL_concat buffer (segment_text seg) hb]
          simp
      · refine Or.inr ⟨?_, by simp, Or.inr ?_⟩
        · intro s hs
          rcases List.mem_append.mp hs with h | h
          · exact hcl s h
          · simp only [List.mem_singleton] at h; subst h; exact hseg
        · rw [hcur, joinNL_concat buffer (segment_text seg) hb]

theorem chunkBuffersGo_flatten (count : Str → Nat) (chunk_size : Nat) :
    ∀ (l : List Str) (done : List (List Str)) (buffer : List Str) (tok : Nat),
    (chunkBuffersGo count chunk_size l done buffer tok).flatten
      = done.flatten ++ buffer ++ l
  | [], done, buffer, tok => by
    simp only [chunkBuffersGo]
    by_cases hb : buffer = []
    · simp [hb]
    · simp [hb]
  | s :: rest, done, buffer, tok => by
    simp only [chunkBuffersGo]
    by_cases hcond : tok + count s > chunk_size ∧ buffer ≠ []
    · rw [if_pos hcond,
        chunkBuffersGo_flatten count chunk_size rest (done ++ [buffer]) [s] (count s)]
      simp
    · rw [if_neg hcond, chunkBuffersGo_flatten count chunk_size rest done (buffer ++ [s]) _]
      simp

/-- C2: `chunk_transcript` formats every segment as `"[MM:SS] text"` and
accumulates segments into a buffer, emitting the buffer as a completed chunk
exactly when adding a segment's token count would push the running chunk's
token count over the chunk-size budget while the buffer is non-empty (the new
buffer then starts with that segment; otherwise the segment is appended with a
newline separator); the final non-empty buffer is always emitted; an empty
segment list yields an empty chunk list; and no segment is ever split across
chunks (every chunk is a newline-join of whole formatted segments, and the
buffers partition the formatted segment list). -/
theorem chunk_transcript_correct (count : Str → Nat) (chunk_size : Nat)
    (transcript : List TranscriptSegment)
    (hclean : ∀ seg ∈ transcript, Clean (segment_text seg)) :
    chunk_transcript count chunk_size transcript
        = chunk_transcript_spec count chunk_size transcript
    ∧ (chunkBuffersGo count chunk_size (transcript.map segment_text) [] [] 0).flatten
        = transcript.map segment_text
    ∧ chunk_transcript count chunk_size [] = [] := by
  refine ⟨?_, ?_, rfl⟩
  · have := chunkGo_spec_go count chunk_size transcript hclean [] [] [] 0
      (Or.inl ⟨rfl, rfl⟩)
    simpa [chunk_transcript, chunk_transcript_spec] using this
  · rw [chunkBuffersGo_flatten]
    simp

/-- Witness for C2 at a concrete transcript: two short segments with a
character-count tokenizer and budget 20, which forces a chunk split. -/
theorem chunk_transcript_correct_witness :
    (∀ seg ∈ [TranscriptSegment.mk 0 1000 (str "hello") none,
        TranscriptSegment.mk 60000 61000 (str "world") none],
      Clean (segment_text seg))
    ∧ (chunk_transcript List.length 20
          [TranscriptSegment.mk 0 1000 (str "hello") none,
            TranscriptSegment.mk 60000 61000 (str "world") none]
        = chunk_transcript_spec List.length 20
          [TranscriptSegment.mk 0 1000 (str "hello") none,
            TranscriptSegment.mk 60000 61000 (str "world") none]
      ∧ (chunkBuffersGo List.length 20
          ([TranscriptSegment.mk 0 1000 (str "hello") none,
            TranscriptSegment.mk 60000 61000 (str "world") none].map segment_text)
          [] [] 0).flatten
        = [TranscriptSegment.mk 0 1000 (str "hello") none,
            TranscriptSegment.mk 60000 61000 (str "world") none].map segment_text
      ∧ chunk_transcript List.length 20 [] = []) :=
  ⟨by decide, chunk_transcript_correct List.length 20 _ (by decide)⟩

theorem enumFrom_sections (l : List Str) :
    ∀ n, ((List.enumFrom n l).map fun p => str "Section " ++ natStr (p.1 + 1) ++ str ":\n" ++ p.2)
      = numberedSections (n + 1) l := by
  induction l with
  | nil => intro n; rfl
  | cons s rest ih =>
    intro n
    simp only [List.enumFrom, List.map_cons, numberedSections]
    rw [ih (n + 1)]

/-- C3: `reduce_summaries` on a single-element list returns that element
unchanged with zero upstream chat-completion calls; on a list of N > 1
summaries it performs exactly one upstream call whose user content
concatenates all N summaries in input order under numbered
"Section 1".."Section N" headers (below the reduction prompt), and returns
that call's message text. -/
theorem reduce_summaries_correct (chat : Str → Str → Str) (summaries : List Str)
    (summary_type : Str) (hlen : summaries.length > 1) :
    (∀ s, reduce_summaries chat [s] summary_type = (s, []))
    ∧ reduce_summaries chat summaries summary_type
        = (chat reduce_system_message
            (reduction_prompt summary_type ++ str "\n\n"
              ++ joinSep (str "\n\n") (numberedSections 1 summaries)),
          [⟨reduce_system_message,
            reduction_prompt summary_type ++ str "\n\n"
              ++ joinSep (str "\n\n") (numberedSections 1 summaries)⟩]) := by
  constructor
  · intro s
    simp [reduce_summaries]
  · have hne : ¬ summaries.length = 1 := by omega
    have hsec : (summaries.enum.map fun p => str "Section " ++ natStr (p.1 + 1) ++ str ":\n" ++ p.2)
        = numberedSections 1 summaries := by
      have := enumFrom_sections summaries 0
      simpa [List.enum] using this
    simp only [reduce_summaries, if_neg hne, hsec]

/-- Witness for C3: two summaries, an echoing chat oracle. -/
theorem reduce_summaries_correct_witness :
    ([str "alpha", str "beta"].length > 1)
    ∧ ((∀ s, reduce_summaries (fun _ u => u) [s] (str "short") = (s, []))
      ∧ reduce_summaries (fun _ u => u) [str "alpha", str "beta"] (str "short")
          = ((fun (_ u : Str) => u) reduce_system_message
              (reduction_prompt (str "short") ++ str "\n\n"
                ++ joinSep (str "\n\n") (numberedSections 1 [str "alpha", str "beta"])),
            [⟨reduce_system_message,
              reduction_prompt (str "short") ++ str "\n\n"
                ++ joinSep (str "\n\n") (numberedSections 1 [str "alpha", str "beta"])⟩])) :=
  ⟨by decide, reduce_summaries_correct (fun _ u => u) [str "alpha", str "beta"] (str "short")
    (by decide)⟩

/-- C4: with preferred languages, `fetch_transcript` is tried with them first;
only a "No transcript found" failure falls through to the fallback logic while
any other failure propagates; the fallback fails with "no transcripts
available" when the video has no caption tracks, and otherwise retries
`fetch_transcript` with the single language code of the first manually created
track when one exists, else of the first track of any kind. -/
theorem fetch_with_fallback_correct
    (fetch : List Str → Except Str (List TranscriptSegment))
    (available : Except Str (List TranscriptInfo))
    (preferred_languages : List Str) (hpref : preferred_languages ≠ []) :
    (∀ segments, fetch preferred_languages = .ok segments →
      fetch_transcript_with_fallback fetch available preferred_languages = .ok segments)
    ∧ (∀ e, fetch preferred_languages = .error e →
        inStr (str "No transcript found") e = false →
        fetch_transcript_with_fallback fetch available preferred_languages = .error e)
    ∧ (∀ e, fetch preferred_languages = .error e →
        inStr (str "No transcript found") e = true →
        fetch_transcript_with_fallback fetch available preferred_languages
          = fallback_fetch fetch available)
    ∧ (available = .ok [] →
        fallback_fetch fetch available = .error (str "No transcripts available for this video"))
    ∧ (∀ t0 rest m ms, available = .ok (t0 :: rest) →
        (t0 :: rest).filter (fun t => !t.is_generated) = m :: ms →
        fallback_fetch fetch available = fetch [m.language_code])
    ∧ (∀ t0 rest, available = .ok (t0 :: rest) →
        (t0 :: rest).filter (fun t => !t.is_generated) = [] →
        fallback_fetch fetch available = fetch [t0.language_code]) := by
  refine ⟨?_, ?_, ?_, ?_, ?_, ?_⟩
  · intro segments hfetch
    simp [fetch_transcript_with_fallback, hpref, hfetch]
  · intro e hfetch hsub
    simp [fetch_transcript_with_fallback, hpref, hfetch, hsub]
  · intro e hfetch hsub
    simp [fetch_transcript_with_fallback, hpref, hfetch, hsub]
  · intro hav
    simp [fallback_fetch, hav]
  · intro t0 rest m ms hav hfil
    simp [fallback_fetch, hav, hfil]
  · intro t0 rest hav hfil
    simp [fallback_fetch, hav, hfil]

/-- Witness for C4: a video whose preferred-language fetch fails with a
"No transcript found" error and whose only track is manually created German. -/
theorem fetch_with_fallback_correct_witness :
    (([str "en"] : List Str) ≠ [])
    ∧ ((fun langs => if langs = [str "en"] then
          (.error (str "No transcript found for languages") : Except Str (List TranscriptSegment))
        else .ok []) [str "en"]
        = .error (str "No transcript found for languages"))
    ∧ inStr (str "No transcript found") (str "No transcript found for languages") = true
    ∧ fetch_transcript_with_fallback
        (fun langs => if langs = [str "en"] then
          .error (str "No transcript found for languages")
        else .ok [])
        (.ok [⟨str "German", str "de", false, true⟩]) [str "en"]
        = fallback_fetch
          (fun langs => if langs = [str "en"] then
            .error (str "No transcript found for languages")
          else .ok [])
          (.ok [⟨str "German", str "de", false, true⟩]) := by
  refine ⟨by decide, rfl, rfl, ?_⟩
  exact (fetch_with_fallback_correct _ _ _ (by decide)).2.2.1 _ rfl rfl

/-- Counterexample to C6 as stated: for a caption entry starting at 0.6875
seconds (an exactly representable IEEE-754 double, so the Python float product
`0.6875 * 1000 == 687.5` is exact), the code's `int()` truncation yields
`start_ms = 687`, while the claimed `round()` yields 688. -/
theorem fetch_transcript_round_counterexample :
    (fetch_transcript_segments [⟨11/16, 0, str "hi"⟩]).map TranscriptSegment.start_ms = [687]
    ∧ pyRound ((11/16 : ℚ) * 1000) = 688
    ∧ (687 : Int) ≠ 688 := by
  refine ⟨?_, ?_, by decide⟩
  · show [pyInt ((11/16 : ℚ) * 1000)] = [687]
    norm_num [pyInt]
  · have h1 : ((11/16 : ℚ) * 1000) = 1375/2 := by norm_num
    rw [pyRound, h1]
    norm_num

/-- C6 amended: for every caption entry with non-negative start time `s` and
duration `d` (seconds), `fetch_transcript` produces a segment with
`start_ms = ⌊s * 1000⌋` and `end_ms = ⌊(s + d) * 1000⌋` — truncation toward
zero (which equals the floor for the non-negative times involved), not
rounding — with the entry's text whitespace-trimmed. -/
theorem fetch_transcript_truncates (transcript : List CaptionSnippet)
    (hstart : ∀ s ∈ transcript, 0 ≤ s.start)
    (hdur : ∀ s ∈ transcript, 0 ≤ s.duration) :
    fetch_transcript_segments transcript
      = transcript.map fun s =>
          { start_ms := ⌊s.start * 1000⌋
            end_ms := ⌊(s.start + s.duration) * 1000⌋
            text := pyStrip s.text } := by
  unfold fetch_transcript_segments
  apply List.map_congr_left
  intro s hs
  have h1 : (0 : ℚ) ≤ s.start * 1000 := by
    have := hstart s hs
    positivity
  have h2 : (0 : ℚ) ≤ (s.start + s.duration) * 1000 := by
    have ha := hstart s hs
    have hb := hdur s hs
    positivity
  simp [snippet_to_segment, pyInt, h1, h2]

/-- Witness for C6's amended theorem at a concrete caption entry. -/
theorem fetch_transcript_truncates_witness :
    (∀ s ∈ [CaptionSnippet.mk (1/2) (1/4) (str " a ")], 0 ≤ s.start)
    ∧ (∀ s ∈ [CaptionSnippet.mk (1/2) (1/4) (str " a ")], 0 ≤ s.duration)
    ∧ fetch_transcript_segments [CaptionSnippet.mk (1/2) (1/4) (str " a ")]
        = [CaptionSnippet.mk (1/2) (1/4) (str " a ")].map fun s =>
            { start_ms := ⌊s.start * 1000⌋
              end_ms := ⌊(s.start + s.duration) * 1000⌋
              text := pyStrip s.text } :=
  ⟨by intro s hs; simp at hs; simp [hs], by intro s hs; simp at hs; simp [hs],
    fetch_transcript_truncates _ (by intro s hs; simp at hs; simp [hs])
      (by intro s hs; simp at hs; simp [hs])⟩

/-- Counterexample to C7 as stated: a section carrying `timestamp_ms = 0`
(which `_estimate_timestamp` can produce, since segment start times begin at
0) gets no link — `if section.timestamp_ms:` is false for `0` — although the
claim requires the link `video_url ++ "?t=0s"`. -/
theorem youtube_link_zero_counterexample :
    (process_complete_video [] [⟨str "x", some 0, none⟩] [] []
        (str "https://youtu.be/abcdefghijk")).detailed_summary
      = [⟨str "x", some 0, none⟩]
    ∧ (none : Option Str) ≠ some (str "https://youtu.be/abcdefghijk" ++ str "?t=0s") := by
  constructor
  · rfl
  · simp

/-- C7 amended: after `process_complete_video`, every section of the three
section lists that carries a timestamp other than 0 has `youtube_link`
equal to `video_url` followed by `"&t=<timestamp_ms div 1000>s"` when
`video_url` contains `"?"`, and by `"?t=<timestamp_ms div 1000>s"` otherwise;
sections whose `timestamp_ms` is absent or 0 pass through unchanged (in
particular, they carry no link when they carried none). -/
theorem process_complete_video_links (short_summary : List Str)
    (detailed_summary key_ideas takeaways : List SummarySection) (video_url : Str)
    (s : SummarySection) :
    (process_complete_video short_summary detailed_summary key_ideas takeaways
        video_url).detailed_summary = detailed_summary.map (attach_link video_url)
    ∧ (process_complete_video short_summary detailed_summary key_ideas takeaways
        video_url).key_ideas = key_ideas.map (attach_link video_url)
    ∧ (process_complete_video short_summary detailed_summary key_ideas takeaways
        video_url).actionable_takeaways = takeaways.map (attach_link video_url)
    ∧ (∀ t : Int, s.timestamp_ms = some t → t ≠ 0 →
        (attach_link video_url s).youtube_link
          = some (video_url ++ (if video_url.contains '?' then str "&t=" else str "?t=")
              ++ intStr (t.ediv 1000) ++ str "s"))
    ∧ (s.timestamp_ms = none → attach_link video_url s = s)
    ∧ (s.timestamp_ms = some 0 → attach_link video_url s = s) := by
  refine ⟨rfl, rfl, rfl, ?_, ?_, ?_⟩
  · intro t ht hz
    simp only [attach_link, ht, if_pos hz]
    by_cases hq : video_url.contains '?' = true
    · simp only [create_youtube_link, if_pos hq]
    · simp only [create_youtube_link, if_neg hq]
  · intro ht
    simp [attach_link, ht]
  · intro ht
    simp [attach_link, ht]

/-- Witness for C7's amended theorem at a concrete section and URL. -/
theorem process_complete_video_links_witness :
    ((SummarySection.mk (str "x") (some 42000) none).timestamp_ms = some 42000)
    ∧ ((42000 : Int) ≠ 0)
    ∧ (attach_link (str "https://www.youtube.com/watch?v=dQw4w9WgXcQ")
        (SummarySection.mk (str "x") (some 42000) none)).youtube_link
      = some (str "https://www.youtube.com/watch?v=dQw4w9WgXcQ"
          ++ (if (str "https://www.youtube.com/watch?v=dQw4w9WgXcQ").contains '?'
              then str "&t=" else str "?t=")
          ++ intStr ((42000 : Int).ediv 1000) ++ str "s") :=
  ⟨rfl, by decide,
    (process_complete_video_links [] [] [] [] (str "https://www.youtube.com/watch?v=dQw4w9WgXcQ")
      (SummarySection.mk (str "x") (some 42000) none)).2.2.2.1 42000 rfl (by decide)⟩

/-- C1: when summarization raises, the pipeline still marks the job
`completed` (never `failed`) with `progress_percent` 100 and the literal
fallback result — whose summaries say the AI backend was unavailable and
whose processing stats have `tokens_used = 0` and `cost_usd = 0.00` — and the
job is marked `failed` with the captured error text exactly when an exception
escapes the entire outer procedure. -/
theorem pipeline_failure_semantics (job_id url : Str)
    (fetch_result : Except Str (List TranscriptSegment))
    (summarize : List TranscriptSegment → Except Str CompleteVideoResult)
    (job : Job) (e : Str)
    (hsumm : summarize (transcript_or_mock fetch_result) = .error e) :
    (process_video_pipeline job_id url none fetch_result summarize job).status
        = JobStatus.completed
    ∧ (process_video_pipeline job_id url none fetch_result summarize job).progress.progress_percent
        = 100
    ∧ (process_video_pipeline job_id url none fetch_result summarize job).result
        = some (fallback_result job_id url)
    ∧ (fallback_result job_id url).short_summary
        = [str "This is a fallback summary when Azure OpenAI is not available",
           str "The system gracefully handles configuration issues"]
    ∧ (fallback_result job_id url).actionable_takeaways.map SummarySection.content
        = [str "Configure Azure OpenAI credentials to enable AI processing"]
    ∧ (fallback_result job_id url).processing_stats.tokens_used = 0
    ∧ (fallback_result job_id url).processing_stats.cost_usd = 0
    ∧ (∀ e2, (process_video_pipeline job_id url (some e2) fetch_result summarize job).status
          = JobStatus.failed
        ∧ (process_video_pipeline job_id url (some e2) fetch_result summarize job).error
          = some e2)
    ∧ (∀ summarize2 : List TranscriptSegment → Except Str CompleteVideoResult,
        (process_video_pipeline job_id url none fetch_result summarize2 job).status
          ≠ JobStatus.failed) := by
  refine ⟨?_, ?_, ?_, rfl, rfl, rfl, rfl, ?_, ?_⟩
  · simp [process_video_pipeline, hsumm]
  · simp [process_video_pipeline, hsumm]
  · simp [process_video_pipeline, hsumm]
  · intro e2
    exact ⟨rfl, rfl⟩
  · intro summarize2
    unfold process_video_pipeline
    cases h : summarize2 (transcript_or_mock fetch_result) <;> simp [h]

/-- Witness for C1: a concrete job whose summarization oracle always raises. -/
theorem pipeline_failure_semantics_witness :
    ((fun _ : List TranscriptSegment =>
        (.error (str "boom") : Except Str CompleteVideoResult))
      (transcript_or_mock (.error (str "no transcript"))) = .error (str "boom"))
    ∧ (process_video_pipeline (str "j1") (str "https://youtu.be/abcdefghijk")
        none (.error (str "no transcript"))
        (fun _ => .error (str "boom"))
        ⟨str "j1", JobStatus.pending,
          ⟨JobStatus.pending, 0, str "Initializing job", none⟩, none, none,
          str "2025-01-01T00:00:00Z"⟩).status = JobStatus.completed
    ∧ (process_video_pipeline (str "j1") (str "https://youtu.be/abcdefghijk")
        none (.error (str "no transcript"))
        (fun _ => .error (str "boom"))
        ⟨str "j1", JobStatus.pending,
          ⟨JobStatus.pending, 0, str "Initializing job", none⟩, none, none,
          str "2025-01-01T00:00:00Z"⟩).result
      = some (fallback_result (str "j1") (str "https://youtu.be/abcdefghijk")) :=
  ⟨rfl,
    (pipeline_failure_semantics (str "j1") (str "https://youtu.be/abcdefghijk")
      (.error (str "no transcript")) (fun _ => .error (str "boom")) _ (str "boom") rfl).1,
    (pipeline_failure_semantics (str "j1") (str "https://youtu.be/abcdefghijk")
      (.error (str "no transcript")) (fun _ => .error (str "boom")) _ (str "boom") rfl).2.2.1⟩

theorem storeGet_storeSet_same (store : JobStore) (job_id : Str) (job : Job) :
    storeGet (storeSet store job_id job) job_id = some job := by
  induction store with
  | nil => simp [storeSet, storeGet]
  | cons kv rest ih =>
    obtain ⟨k, j⟩ := kv
    by_cases hk : k = job_id
    · simp [storeSet, storeGet, hk]
    · simp [storeSet, storeGet, hk, ih]

theorem storeGet_storeSet_other (store : JobStore) (job_id other : Str) (job : Job)
    (hne : other ≠ job_id) :
    storeGet (storeSet store job_id job) other = storeGet store other := by
  have hne' : job_id ≠ other := Ne.symm hne
  induction store with
  | nil => simp [storeSet, storeGet, hne']
  | cons kv rest ih =>
    obtain ⟨k, j⟩ := kv
    by_cases hk : k = job_id
    · subst hk
      simp [storeSet, storeGet, hne']
    · simp only [storeSet, if_neg hk, storeGet]
      by_cases hko : k = other
      · simp [hko]
      · simp [hko, ih]

/-- C8: cancelling an unknown job id yields a 404 error; cancelling a job in
a terminal state (`completed`, `failed`, `cancelled`) yields a 400 error and
leaves the store unchanged; cancelling any other job succeeds, sets the job's
status to `cancelled` and its progress step to "Cancelled by user", and leaves
every other job unchanged. -/
theorem cancel_job_correct (store : JobStore) (job_id : Str) :
    (storeGet store job_id = none →
      cancel_job store job_id
        = (.error (404, str "Job " ++ job_id ++ str " not found"), store))
    ∧ (∀ job, storeGet store job_id = some job →
        job.status ∈ terminal_states →
        cancel_job store job_id
          = (.error (400, str "Cannot cancel job in " ++ job.status.value ++ str " state"),
            store))
    ∧ (∀ job, storeGet store job_id = some job →
        job.status ∉ terminal_states →
        (cancel_job store job_id).1
            = .ok (str "Job " ++ job_id ++ str " cancelled successfully")
        ∧ storeGet (cancel_job store job_id).2 job_id
            = some { job with
                status := JobStatus.cancelled
                progress := { job.progress with current_step := str "Cancelled by user" } }
        ∧ (∀ other, other ≠ job_id →
            storeGet (cancel_job store job_id).2 other = storeGet store other)) := by
  refine ⟨?_, ?_, ?_⟩
  · intro hnone
    simp [cancel_job, hnone]
  · intro job hget hterm
    simp [cancel_job, hget, hterm]
  · intro job hget hterm
    refine ⟨?_, ?_, ?_⟩
    · simp [cancel_job, hget, hterm]
    · simp only [cancel_job, hget, if_neg hterm]
      exact storeGet_storeSet_same store job_id _
    · intro other hne
      simp only [cancel_job, hget, if_neg hterm]
      exact storeGet_storeSet_other store job_id other _ hne

/-- Witness for C8: a two-job store — one running job that gets cancelled and
one completed job that cannot be. -/
theorem cancel_job_correct_witness :
    (storeGet [(str "a", (⟨str "a", JobStatus.mapping,
          ⟨JobStatus.mapping, 65, str "Generating initial summaries", none⟩,
          none, none, str "2025-01-01T00:00:00Z"⟩ : Job))] (str "a")
        = some ⟨str "a", JobStatus.mapping,
          ⟨JobStatus.mapping, 65, str "Generating initial summaries", none⟩,
          none, none, str "2025-01-01T00:00:00Z"⟩)
    ∧ ((⟨str "a", JobStatus.mapping,
          ⟨JobStatus.mapping, 65, str "Generating initial summaries", none⟩,
          none, none, str "2025-01-01T00:00:00Z"⟩ : Job).status ∉ terminal_states)
    ∧ (cancel_job [(str "a", ⟨str "a", JobStatus.mapping,
          ⟨JobStatus.mapping, 65, str "Generating initial summaries", none⟩,
          none, none, str "2025-01-01T00:00:00Z"⟩)] (str "a")).1
        = .ok (str "Job " ++ str "a" ++ str " cancelled successfully")
    ∧ storeGet (cancel_job [(str "a", ⟨str "a", JobStatus.mapping,
          ⟨JobStatus.mapping, 65, str "Generating initial summaries", none⟩,
          none, none, str "2025-01-01T00:00:00Z"⟩)] (str "a")).2 (str "a")
        = some { (⟨str "a", JobStatus.mapping,
            ⟨JobStatus.mapping, 65, str "Generating initial summaries", none⟩,
            none, none, str "2025-01-01T00:00:00Z"⟩ : Job) with
          status := JobStatus.cancelled
          progress := { (⟨JobStatus.mapping, 65, str "Generating initial summaries",
              none⟩ : ProcessingProgress) with current_step := str "Cancelled by user" } } := by
  have h := (cancel_job_correct [(str "a", ⟨str "a", JobStatus.mapping,
    ⟨JobStatus.mapping, 65, str "Generating initial summaries", none⟩,
    none, none, str "2025-01-01T00:00:00Z"⟩)] (str "a")).2.2
    ⟨str "a", JobStatus.mapping,
      ⟨JobStatus.mapping, 65, str "Generating initial summaries", none⟩,
      none, none, str "2025-01-01T00:00:00Z"⟩ (by decide) (by decide)
  exact ⟨by decide, by decide, h.1, h.2.1⟩

theorem truthyParent_eq (node : MindmapNode) (p : Str)
    (hp : node.parent_id = some p) : truthyParent node = p := by
  simp [truthyParent, hp]

theorem parent_of_truthy (node : MindmapNode) (h : truthyParent node ≠ []) :
    node.parent_id = some (truthyParent node) := by
  cases hpid : node.parent_id with
  | some q => simp [truthyParent, hpid]
  | none => exact absurd (by simp [truthyParent, hpid]) h

theorem firstMissingParent_none_iff (node_ids : List Str) (nodes : List MindmapNode) :
    firstMissingParent node_ids nodes = none ↔
      ∀ node ∈ nodes, ∀ p, node.parent_id = some p → p ≠ [] → p ∈ node_ids := by
  induction nodes with
  | nil => simp [firstMissingParent]
  | cons node rest ih =>
    simp only [firstMissingParent]
    by_cases hbad : truthyParent node ≠ [] ∧ truthyParent node ∉ node_ids
    · rw [if_pos hbad]
      refine iff_of_false (by simp) ?_
      intro hall
      exact hbad.2 (hall node (by simp) _ (parent_of_truthy node hbad.1) hbad.1)
    · rw [if_neg hbad, ih]
      push_neg at hbad
      constructor
      · intro hall n hn p hp hpe
        rcases List.mem_cons.mp hn with rfl | hmem
        · have ht := truthyParent_eq n p hp
          have := hbad (ht ▸ hpe)
          rwa [ht] at this
        · exact hall n hmem p hp hpe
      · intro hall n hn p hp hpe
        exact hall n (by simp [hn]) p hp hpe

theorem firstMissingParent_some (node_ids : List Str) (nodes : List MindmapNode)
    (pr : Str × Str) (h : firstMissingParent node_ids nodes = some pr) :
    pr.1 ∉ node_ids ∧ pr.1 ≠ []
      ∧ ∃ node ∈ nodes, node.parent_id = some pr.1 ∧ node.id = pr.2 := by
  induction nodes with
  | nil => simp [firstMissingParent] at h
  | cons node rest ih =>
    simp only [firstMissingParent] at h
    by_cases hbad : truthyParent node ≠ [] ∧ truthyParent node ∉ node_ids
    · rw [if_pos hbad] at h
      injection h with h
      subst h
      exact ⟨hbad.2, hbad.1, node, by simp, parent_of_truthy node hbad.1, rfl⟩
    · rw [if_neg hbad] at h
      obtain ⟨h1, h2, n, hn, h3⟩ := ih h
      exact ⟨h1, h2, n, by simp [hn], h3⟩

/-- Counterexample to C9 as stated: a single node whose `parent_id` is the
empty string — not the id of any node in the list — still constructs
successfully, because `if node.parent_id and ...` is false for the falsy
empty string.  (Construction therefore does not fail whenever a `parent_id`
fails to reference an existing node id.) -/
theorem mindmap_empty_parent_counterexample :
    mkMindmap (str "dQw4w9WgXcQ") (str "T")
        [⟨str "a", str "A", some [], 0, none⟩] (str "gpt-4")
      = .ok ⟨str "dQw4w9WgXcQ", str "T",
          [⟨str "a", str "A", some [], 0, none⟩], str "gpt-4"⟩
    ∧ (⟨str "a", str "A", some [], 0, none⟩ : MindmapNode).parent_id ≠ none
    ∧ ([] : Str) ∉ [(⟨str "a", str "A", some [], 0, none⟩ : MindmapNode)].map MindmapNode.id := by
  refine ⟨rfl, by simp, by simp [str]⟩

/-- C9 amended: construction fails whenever the node list is empty; it fails
with a message naming the missing parent id whenever some node's `parent_id`
is a non-empty string that is not the id of any node in the list; and for a
non-empty node list construction succeeds exactly when every node's
`parent_id`, where present and non-empty, references an existing node id
(an empty-string `parent_id` is treated like an absent one, by Python
truthiness). -/
theorem mindmap_validation (video_id title model_used : Str)
    (nodes : List MindmapNode) (hne : nodes ≠ []) :
    mkMindmap video_id title [] model_used
        = .error (str "Mindmap must have at least one node")
    ∧ ((∃ m, mkMindmap video_id title nodes model_used = .ok m) ↔
        ∀ node ∈ nodes, ∀ p, node.parent_id = some p → p ≠ [] →
          p ∈ nodes.map MindmapNode.id)
    ∧ ((∃ node ∈ nodes, ∃ p, node.parent_id = some p ∧ p ≠ []
          ∧ p ∉ nodes.map MindmapNode.id) →
        ∃ p nid, mkMindmap video_id title nodes model_used
            = .error (str "Parent node " ++ p ++ str " not found for node " ++ nid)
          ∧ p ∉ nodes.map MindmapNode.id ∧ (∃ node ∈ nodes, node.parent_id = some p ∧ node.id = nid)) := by
  refine ⟨rfl, ?_, ?_⟩
  · constructor
    · rintro ⟨m, hm⟩
      rw [← firstMissingParent_none_iff (nodes.map MindmapNode.id) nodes]
      simp only [mkMindmap, validate_mindmap_nodes, if_neg hne] at hm
      cases hfmp : firstMissingParent (nodes.map MindmapNode.id) nodes with
      | some pr => rw [hfmp] at hm; exact absurd hm (by simp [Except.map])
      | none => rfl
    · intro h
      have hfmp : firstMissingParent (nodes.map MindmapNode.id) nodes = none :=
        (firstMissingParent_none_iff _ _).mpr h
      exact ⟨⟨video_id, title, nodes, model_used⟩,
        by simp [mkMindmap, validate_mindmap_nodes, if_neg hne, hfmp, Except.map]⟩
  · rintro ⟨node, hmem, p, hp, hpe, hpnot⟩
    cases hfmp : firstMissingParent (nodes.map MindmapNode.id) nodes with
    | none =>
      have := (firstMissingParent_none_iff _ _).mp hfmp node hmem p hp hpe
      exact absurd this hpnot
    | some pr =>
      obtain ⟨h1, _, n, hn, h3, h4⟩ := firstMissingParent_some _ _ pr hfmp
      exact ⟨pr.1, pr.2,
        by simp [mkMindmap, validate_mindmap_nodes, if_neg hne, hfmp, Except.map],
        h1, n, hn, h3, h4⟩

/-- Witness for C9 at concrete node lists: a dangling parent id fails with the
message naming it; a well-parented two-node mindmap passes the success
criterion. -/
theorem mindmap_validation_witness :
    (([⟨str "child", str "C", some (str "ghost"), 1, none⟩] : List MindmapNode) ≠ [])
    ∧ (∃ node ∈ ([⟨str "child", str "C", some (str "ghost"), 1, none⟩] : List MindmapNode),
        ∃ p, node.parent_id = some p ∧ p ≠ []
          ∧ p ∉ ([⟨str "child", str "C", some (str "ghost"), 1, none⟩] : List MindmapNode).map MindmapNode.id)
    ∧ (∃ p nid, mkMindmap (str "dQw4w9WgXcQ") (str "T")
          [⟨str "child", str "C", some (str "ghost"), 1, none⟩] (str "gpt-4")
          = .error (str "Parent node " ++ p ++ str " not found for node " ++ nid)
        ∧ p ∉ ([⟨str "child", str "C", some (str "ghost"), 1, none⟩] : List MindmapNode).map MindmapNode.id
        ∧ (∃ node ∈ ([⟨str "child", str "C", some (str "ghost"), 1, none⟩] : List MindmapNode),
            node.parent_id = some p ∧ node.id = nid))
    ∧ ((∃ m, mkMindmap (str "dQw4w9WgXcQ") (str "T")
          [⟨str "root", str "R", none, 0, none⟩,
            ⟨str "child", str "C", some (str "root"), 1, none⟩] (str "gpt-4") = .ok m) ↔
        ∀ node ∈ ([⟨str "root", str "R", none, 0, none⟩,
            ⟨str "child", str "C", some (str "root"), 1, none⟩] : List MindmapNode),
          ∀ p, node.parent_id = some p → p ≠ [] →
            p ∈ ([⟨str "root", str "R", none, 0, none⟩,
              ⟨str "child", str "C", some (str "root"), 1, none⟩] : List MindmapNode).map MindmapNode.id) :=
  ⟨by decide,
    ⟨⟨str "child", str "C", some (str "ghost"), 1, none⟩, by decide⟩,
    (mindmap_validation (str "dQw4w9WgXcQ") (str "T") (str "gpt-4") _ (by decide)).2.2
      ⟨⟨str "child", str "C", some (str "ghost"), 1, none⟩, by decide⟩,
    (mindmap_validation (str "dQw4w9WgXcQ") (str "T") (str "gpt-4") _ (by decide)).2.1⟩

theorem idChar_not_ws (c : Char) (h : idChar c = true) : isWS c = false := by
  by_contra hws
  simp only [Bool.not_eq_false] at hws
  have hcase : ((c = ' ' ∨ c = '\t') ∨ c = '\n') ∨ c = '\r' := by
    simpa [isWS] using hws
  rcases hcase with ((rfl | rfl) | rfl) | rfl <;> simp [idChar] at h

theorem nonws_of_all (l : Str) (hall : l.all (fun c => !(isWS c)) = true) :
    ∀ c ∈ l, isWS c = false := by
  intro c hc
  have := List.all_eq_true.mp hall c hc
  simpa using this

theorem nonws_strip (l : Str) (h : ∀ c ∈ l, isWS c = false) : pyStrip l = l := by
  have htl : trimL l = l := by
    cases l with
    | nil => rfl
    | cons c cs =>
      unfold trimL
      rw [List.dropWhile_cons, if_neg (by simp [h c (by simp)])]
  have htr : trimR l = l := by
    unfold trimR
    cases hrev : l.reverse with
    | nil =>
      have hl : l = [] := by simpa using congrArg List.reverse hrev
      simp [hrev, hl]
    | cons c cs =>
      have hc : c ∈ l := by
        have hm : c ∈ l.reverse := by rw [hrev]; simp
        simpa using hm
      rw [List.dropWhile_cons, if_neg (by simp [h c hc]), ← hrev]
      simp
  unfold pyStrip
  rw [htl, htr]

theorem dropLit_mem (p s r : Str) (h : dropLit p s = some r) : ∀ c ∈ p, c ∈ s := by
  induction p generalizing s with
  | nil => intro c hc; simp at hc
  | cons a as ih =>
    intro c hc
    cases s with
    | nil => simp [dropLit] at h
    | cons b bs =>
      simp only [dropLit] at h
      by_cases hab : a = b
      · rw [if_pos hab] at h
        rcases List.mem_cons.mp hc with rfl | hmem
        · simp [hab]
        · exact List.mem_cons_of_mem b (ih bs h c hmem)
      · rw [if_neg hab] at h; exact absurd h (by simp)

theorem matchP1At_all_idChar (l : Str) (h : ∀ c ∈ l, idChar c = true) :
    matchP1At l = none := by
  have hdot : idChar '.' = false := by decide
  have hnone : ∀ lit : Str, '.' ∈ lit → (dropLit lit l).bind take11 = none := by
    intro lit hlit
    cases hd : dropLit lit l with
    | none => rfl
    | some r =>
      have hm := dropLit_mem lit l r hd '.' hlit
      rw [h '.' hm] at hdot
      exact absurd hdot (by simp)
  unfold matchP1At
  rw [hnone _ (by decide), hnone _ (by decide), hnone _ (by decide), hnone _ (by decide)]
  rfl

theorem searchP1_all_idChar (l : Str) (h : ∀ c ∈ l, idChar c = true) :
    searchP1 l = none := by
  induction l with
  | nil => rfl
  | cons c cs ih =>
    show (matchP1At (c :: cs) <|> searchP1 cs) = none
    rw [matchP1At_all_idChar (c :: cs) h, ih (fun x hx => h x (by simp [hx]))]
    rfl

theorem matchVEq_all_idChar (l : Str) (h : ∀ c ∈ l, idChar c = true) :
    matchVEq l = none := by
  cases l with
  | nil => rfl
  | cons c cs =>
    have hc := h c (by simp)
    show (if c = '?' ∨ c = '&' then (dropLit (str "v=") cs).bind take11 else none) = none
    rw [if_neg]
    rintro (rfl | rfl) <;> simp [idChar] at hc

theorem lastVEq_all_idChar (l : Str) (h : ∀ c ∈ l, idChar c = true) :
    lastVEq l = none := by
  induction l with
  | nil => rfl
  | cons c cs ih =>
    have hc := h c (by simp)
    have hnl : ¬ c = '\n' := by rintro rfl; simp [idChar] at hc
    show ((if c ≠ '\n' then lastVEq cs else none) <|> matchVEq (c :: cs)) = none
    rw [if_pos hnl, ih (fun x hx => h x (by simp [hx])), matchVEq_all_idChar (c :: cs) h]
    rfl

theorem searchP2_all_idChar (l : Str) (h : ∀ c ∈ l, idChar c = true) :
    searchP2 l = none := by
  induction l with
  | nil => rfl
  | cons c cs ih =>
    have hdot : idChar '.' = false := by decide
    have hnone : (dropLit (str "youtube.com/") (c :: cs)).bind lastVEq = none := by
      cases hd : dropLit (str "youtube.com/") (c :: cs) with
      | none => rfl
      | some r =>
        have hm := dropLit_mem _ _ r hd '.' (by decide)
        rw [h '.' hm] at hdot
        exact absurd hdot (by simp)
    show ((dropLit (str "youtube.com/") (c :: cs)).bind lastVEq <|> searchP2 cs) = none
    rw [hnone, ih (fun x hx => h x (by simp [hx]))]
    rfl

theorem take11_of_len (id tail : Str) (hlen : id.length = 11)
    (hchars : id.all idChar = true) : take11 (id ++ tail) = some id := by
  have ht : (id ++ tail).take 11 = id := by
    rw [← hlen]
    exact List.take_left id tail
  rw [take11, ht, if_pos ⟨hlen, hchars⟩]

theorem lastVEq_step (c : Char) (l : Str) (hnl : ¬ c = '\n')
    (hm : matchVEq (c :: l) = none) : lastVEq (c :: l) = lastVEq l := by
  show ((if c ≠ '\n' then lastVEq l else none) <|> matchVEq (c :: l)) = lastVEq l
  rw [if_pos hnl, hm]
  cases lastVEq l <;> rfl

theorem extract_watch_aux (id tail : Str) (hlen : id.length = 11) (hchars : id.all idChar = true)
    (htail : ∀ c ∈ tail, isWS c = false) :
    extract_video_id (str "https://www.youtube.com/watch?v=" ++ (id ++ tail)) = .ok id := by
  have hid : ∀ c ∈ id, idChar c = true := fun c hc => List.all_eq_true.mp hchars c hc
  have hu : pyStrip (str "https://www.youtube.com/watch?v=" ++ (id ++ tail))
      = str "https://www.youtube.com/watch?v=" ++ (id ++ tail) := by
    apply nonws_strip
    intro c hc
    rcases List.mem_append.mp hc with hpre | hrest
    · exact nonws_of_all _ (by decide) c hpre
    · rcases List.mem_append.mp hrest with hidm | ht
      · exact idChar_not_ws c (hid c hidm)
      · exact htail c ht
  have hs : searchP1 (str "https://www.youtube.com/watch?v=" ++ (id ++ tail)) = some id := by
    show ((take11 (id ++ tail) <|> (none <|> (none <|> none)))
        <|> searchP1 (str "outube.com/watch?v=" ++ (id ++ tail))) = some id
    rw [take11_of_len id tail hlen hchars]
    rfl
  simp only [extract_video_id, hu, hs]

theorem extract_short_aux (id tail : Str) (hlen : id.length = 11) (hchars : id.all idChar = true)
    (htail : ∀ c ∈ tail, isWS c = false) :
    extract_video_id (str "https://youtu.be/" ++ (id ++ tail)) = .ok id := by
  have hid : ∀ c ∈ id, idChar c = true := fun c hc => List.all_eq_true.mp hchars c hc
  have hu : pyStrip (str "https://youtu.be/" ++ (id ++ tail))
      = str "https://youtu.be/" ++ (id ++ tail) := by
    apply nonws_strip
    intro c hc
    rcases List.mem_append.mp hc with hpre | hrest
    · exact nonws_of_all _ (by decide) c hpre
    · rcases List.mem_append.mp hrest with hidm | ht
      · exact idChar_not_ws c (hid c hidm)
      · exact htail c ht
  have hs : searchP1 (str "https://youtu.be/" ++ (id ++ tail)) = some id := by
    show ((take11 (id ++ tail) <|> (none <|> none))
        <|> searchP1 (str "outu.be/" ++ (id ++ tail))) = some id
    rw [take11_of_len id tail hlen hchars]
    rfl
  simp only [extract_video_id, hu, hs]

theorem extract_embed_aux (id tail : Str) (hlen : id.length = 11) (hchars : id.all idChar = true)
    (htail : ∀ c ∈ tail, isWS c = false) :
    extract_video_id (str "https://www.youtube.com/embed/" ++ (id ++ tail)) = .ok id := by
  have hid : ∀ c ∈ id, idChar c = true := fun c hc => List.all_eq_true.mp hchars c hc
  have hu : pyStrip (str "https://www.youtube.com/embed/" ++ (id ++ tail))
      = str "https://www.youtube.com/embed/" ++ (id ++ tail) := by
    apply nonws_strip
    intro c hc
    rcases List.mem_append.mp hc with hpre | hrest
    · exact nonws_of_all _ (by decide) c hpre
    · rcases List.mem_append.mp hrest with hidm | ht
      · exact idChar_not_ws c (hid c hidm)
      · exact htail c ht
  have hs : searchP1 (str "https://www.youtube.com/embed/" ++ (id ++ tail)) = some id := by
    show ((take11 (id ++ tail) <|> none)
        <|> searchP1 (str "outube.com/embed/" ++ (id ++ tail))) = some id
    rw [take11_of_len id tail hlen hchars]
    rfl
  simp only [extract_video_id, hu, hs]

theorem extract_upper_aux (id tail : Str) (hlen : id.length = 11) (hchars : id.all idChar = true)
    (htail : ∀ c ∈ tail, isWS c = false) :
    extract_video_id (str "HTTPS://www.youtube.com/watch?v=" ++ (id ++ tail)) = .ok id := by
  have hid : ∀ c ∈ id, idChar c = true := fun c hc => List.all_eq_true.mp hchars c hc
  have hu : pyStrip (str "HTTPS://www.youtube.com/watch?v=" ++ (id ++ tail))
      = str "HTTPS://www.youtube.com/watch?v=" ++ (id ++ tail) := by
    apply nonws_strip
    intro c hc
    rcases List.mem_append.mp hc with hpre | hrest
    · exact nonws_of_all _ (by decide) c hpre
    · rcases List.mem_append.mp hrest with hidm | ht
      · exact idChar_not_ws c (hid c hidm)
      · exact htail c ht
  have hs : searchP1 (str "HTTPS://www.youtube.com/watch?v=" ++ (id ++ tail)) = some id := by
    show ((take11 (id ++ tail) <|> (none <|> (none <|> none)))
        <|> searchP1 (str "outube.com/watch?v=" ++ (id ++ tail))) = some id
    rw [take11_of_len id tail hlen hchars]
    rfl
  simp only [extract_video_id, hu, hs]

theorem extract_bare_aux (id : Str) (hlen : id.length = 11) (hchars : id.all idChar = true) :
    extract_video_id id = .ok id := by
  have hid : ∀ c ∈ id, idChar c = true := fun c hc => List.all_eq_true.mp hchars c hc
  have hu : pyStrip id = id := nonws_strip id (fun c hc => idChar_not_ws c (hid c hc))
  simp only [extract_video_id, hu, searchP1_all_idChar id hid, searchP2_all_idChar id hid]
  rw [if_pos ⟨hlen, hchars⟩]

theorem extract_qorder_aux (id : Str) (hlen : id.length = 11) (hchars : id.all idChar = true) :
    extract_video_id (str "https://www.youtube.com/watch?a=b&v=" ++ id) = .ok id := by
  have hid : ∀ c ∈ id, idChar c = true := fun c hc => List.all_eq_true.mp hchars c hc
  have hu : pyStrip (str "https://www.youtube.com/watch?a=b&v=" ++ id)
      = str "https://www.youtube.com/watch?a=b&v=" ++ id := by
    apply nonws_strip
    intro c hc
    rcases List.mem_append.mp hc with hpre | hidm
    · exact nonws_of_all _ (by decide) c hpre
    · exact idChar_not_ws c (hid c hidm)
  have hs1 : searchP1 (str "https://www.youtube.com/watch?a=b&v=" ++ id) = searchP1 id := rfl
  have h0 : lastVEq id = none := lastVEq_all_idChar id hid
  have h1 : lastVEq ('=' :: id) = none := by
    rw [lastVEq_step '=' id (by decide) rfl]
    exact h0
  have h2 : lastVEq ('v' :: '=' :: id) = none := by
    rw [lastVEq_step 'v' ('=' :: id) (by decide) rfl]
    exact h1
  have h3 : lastVEq ('&' :: 'v' :: '=' :: id) = some id := by
    show ((if ('&' : Char) ≠ '\n' then lastVEq ('v' :: '=' :: id) else none)
        <|> matchVEq ('&' :: 'v' :: '=' :: id)) = some id
    rw [if_pos (by decide), h2]
    show matchVEq ('&' :: 'v' :: '=' :: id) = some id
    show take11 id = some id
    have ht := take11_of_len id [] hlen hchars
    rwa [List.append_nil] at ht
  have h4 : lastVEq ('b' :: '&' :: 'v' :: '=' :: id) = some id := by
    rw [lastVEq_step 'b' ('&' :: 'v' :: '=' :: id) (by decide) rfl]
    exact h3
  have h5 : lastVEq ('=' :: 'b' :: '&' :: 'v' :: '=' :: id) = some id := by
    rw [lastVEq_step '=' ('b' :: '&' :: 'v' :: '=' :: id) (by decide) rfl]
    exact h4
  have h6 : lastVEq ('a' :: '=' :: 'b' :: '&' :: 'v' :: '=' :: id) = some id := by
    rw [lastVEq_step 'a' ('=' :: 'b' :: '&' :: 'v' :: '=' :: id) (by decide) rfl]
    exact h5
  have h7 : lastVEq ('?' :: 'a' :: '=' :: 'b' :: '&' :: 'v' :: '=' :: id) = some id := by
    rw [lastVEq_step '?' ('a' :: '=' :: 'b' :: '&' :: 'v' :: '=' :: id) (by decide) rfl]
    exact h6
  have h8 : lastVEq ('h' :: '?' :: 'a' :: '=' :: 'b' :: '&' :: 'v' :: '=' :: id) = some id := by
    rw [lastVEq_step 'h' ('?' :: 'a' :: '=' :: 'b' :: '&' :: 'v' :: '=' :: id) (by decide) rfl]
    exact h7
  have h9 : lastVEq ('c' :: 'h' :: '?' :: 'a' :: '=' :: 'b' :: '&' :: 'v' :: '=' :: id) = some id := by
    rw [lastVEq_step 'c' ('h' :: '?' :: 'a' :: '=' :: 'b' :: '&' :: 'v' :: '=' :: id) (by decide) rfl]
    exact h8
  have h10 : lastVEq ('t' :: 'c' :: 'h' :: '?' :: 'a' :: '=' :: 'b' :: '&' :: 'v' :: '=' :: id) = some id := by
    rw [lastVEq_step 't' ('c' :: 'h' :: '?' :: 'a' :: '=' :: 'b' :: '&' :: 'v' :: '=' :: id) (by decide) rfl]
    exact h9
  have h11 : lastVEq ('a' :: 't' :: 'c' :: 'h' :: '?' :: 'a' :: '=' :: 'b' :: '&' :: 'v' :: '=' :: id) = some id := by
    rw [lastVEq_step 'a' ('t' :: 'c' :: 'h' :: '?' :: 'a' :: '=' :: 'b' :: '&' :: 'v' :: '=' :: id) (by decide) rfl]
    exact h10
  have h12 : lastVEq ('w' :: 'a' :: 't' :: 'c' :: 'h' :: '?' :: 'a' :: '=' :: 'b' :: '&' :: 'v' :: '=' :: id) = some id := by
    rw [lastVEq_step 'w' ('a' :: 't' :: 'c' :: 'h' :: '?' :: 'a' :: '=' :: 'b' :: '&' :: 'v' :: '=' :: id) (by decide) rfl]
    exact h11
  have hlv : lastVEq (str "watch?a=b&v=" ++ id) = some id := h12
  have hs2 : searchP2 (str "https://www.youtube.com/watch?a=b&v=" ++ id) = some id := by
    show ((lastVEq (str "watch?a=b&v=" ++ id))
        <|> searchP2 (str "outube.com/watch?a=b&v=" ++ id)) = some id
    rw [hlv]
    rfl
  simp only [extract_video_id, hu, hs1, searchP1_all_idChar id hid, hs2]

/-- Counterexample to C5 as stated: a `/shorts/` URL — listed by the claim as
a shape whose 11-character id is extracted — is rejected by
`extract_video_id` (none of its patterns knows `/shorts/`), and so is an
all-uppercase scheme-and-host URL (the patterns are case-sensitive). -/
theorem extract_video_id_shorts_counterexample :
    extract_video_id (str "https://www.youtube.com/shorts/dQw4w9WgXcQ")
      = .error (str "Could not extract video ID from URL: https://www.youtube.com/shorts/dQw4w9WgXcQ")
    ∧ extract_video_id (str "https://www.youtube.com/shorts/dQw4w9WgXcQ")
      ≠ .ok (str "dQw4w9WgXcQ")
    ∧ extract_video_id (str "HTTPS://WWW.YOUTUBE.COM/WATCH?V=dQw4w9WgXcQ")
      = .error (str "Could not extract video ID from URL: HTTPS://WWW.YOUTUBE.COM/WATCH?V=dQw4w9WgXcQ") := by
  refine ⟨rfl, ?_, rfl⟩
  rw [show extract_video_id (str "https://www.youtube.com/shorts/dQw4w9WgXcQ")
      = .error (str "Could not extract video ID from URL: https://www.youtube.com/shorts/dQw4w9WgXcQ") from rfl]
  intro h
  exact Except.noConfusion h

/-- C5 amended: for every 11-character id and every whitespace-free tail,
`extract_video_id` returns exactly the id from `watch?v=`, `youtu.be/` and
`embed/` URLs — with trailing query parameters, with a different-ordered
query parameter, and with an uppercase scheme (but not `/shorts/` URLs nor an
uppercase host, per the counterexample); a trimmed input that is itself
exactly an 11-character id pattern is returned as-is; and inputs lacking a
valid embedded id (google.com, a too-short id, a channel or playlist URL, the
empty string) fail with the invalid-input error naming the offending URL. -/
theorem extract_video_id_correct (id tail : Str) (hlen : id.length = 11)
    (hchars : id.all idChar = true) (htail : ∀ c ∈ tail, isWS c = false) :
    extract_video_id (str "https://www.youtube.com/watch?v=" ++ (id ++ tail)) = .ok id
    ∧ extract_video_id (str "https://youtu.be/" ++ (id ++ tail)) = .ok id
    ∧ extract_video_id (str "https://www.youtube.com/embed/" ++ (id ++ tail)) = .ok id
    ∧ extract_video_id (str "HTTPS://www.youtube.com/watch?v=" ++ (id ++ tail)) = .ok id
    ∧ extract_video_id (str "https://www.youtube.com/watch?a=b&v=" ++ id) = .ok id
    ∧ extract_video_id id = .ok id
    ∧ extract_video_id (str "https://www.google.com")
      = .error (str "Could not extract video ID from URL: https://www.google.com")
    ∧ extract_video_id (str "https://www.youtube.com/watch?v=tooshort")
      = .error (str "Could not extract video ID from URL: https://www.youtube.com/watch?v=tooshort")
    ∧ extract_video_id (str "https://www.youtube.com/channel/UCxyz123")
      = .error (str "Could not extract video ID from URL: https://www.youtube.com/channel/UCxyz123")
    ∧ extract_video_id (str "https://www.youtube.com/playlist?list=PLxyz123")
      = .error (str "Could not extract video ID from URL: https://www.youtube.com/playlist?list=PLxyz123")
    ∧ extract_video_id (str "")
      = .error (str "Could not extract video ID from URL: ") :=
  ⟨extract_watch_aux id tail hlen hchars htail,
    extract_short_aux id tail hlen hchars htail,
    extract_embed_aux id tail hlen hchars htail,
    extract_upper_aux id tail hlen hchars htail,
    extract_qorder_aux id hlen hchars,
    extract_bare_aux id hlen hchars,
    rfl, rfl, rfl, rfl, rfl⟩

/-- Witness for C5's amended theorem at a concrete id and tail. -/
theorem extract_video_id_correct_witness :
    ((str "dQw4w9WgXcQ").length = 11)
    ∧ ((str "dQw4w9WgXcQ").all idChar = true)
    ∧ (∀ c ∈ str "&t=42s", isWS c = false)
    ∧ extract_video_id (str "https://www.youtube.com/watch?v="
        ++ (str "dQw4w9WgXcQ" ++ str "&t=42s")) = .ok (str "dQw4w9WgXcQ")
    ∧ extract_video_id (str "dQw4w9WgXcQ") = .ok (str "dQw4w9WgXcQ") :=
  ⟨by decide, by decide, by decide,
    (extract_video_id_correct (str "dQw4w9WgXcQ") (str "&t=42s")
      (by decide) (by decide) (by decide)).1,
    (extract_video_id_correct (str "dQw4w9WgXcQ") (str "&t=42s")
      (by decide) (by decide) (by decide)).2.2.2.2.2.1⟩

/-- C10: the ingestion URL validator's patterns are anchored only at the start
(`re.match`) with no end anchor: a watch URL whose `v=` value is 12
characters from the id class is accepted (the first 11 characters match the
group, the 12th is ignored); more generally any text may trail a matching
URL; and a URL whose accepted shape begins after position 0 is rejected. -/
theorem validate_youtube_url_no_end_anchor :
    validate_youtube_url (str "https://www.youtube.com/watch?v=dQw4w9WgXcQ1")
      = .ok (str "https://www.youtube.com/watch?v=dQw4w9WgXcQ1")
    ∧ (str "dQw4w9WgXcQ1").length = 12
    ∧ (str "dQw4w9WgXcQ1").all idChar = true
    ∧ (∀ tail : Str, matchWatchUrl (str "https://www.youtube.com/watch?v=dQw4w9WgXcQ" ++ tail)
        = true)
    ∧ (∀ tail : Str,
        validate_youtube_url (str "https://www.youtube.com/watch?v=dQw4w9WgXcQ" ++ tail)
          = .ok (str "https://www.youtube.com/watch?v=dQw4w9WgXcQ" ++ tail))
    ∧ validate_youtube_url (str "zhttps://www.youtube.com/watch?v=dQw4w9WgXcQ")
      = .error (str "Invalid YouTube URL format") :=
  ⟨rfl, by decide, by decide, fun _ => rfl, fun _ => rfl, rfl⟩

end MindTube

